import Mathlib

set_option maxHeartbeats 1000000

namespace RsWinThings

/-
Shallow embedding of the change-tracking core of RsWindowsThingies
(src/mft.rs and src/bin/listen_usn.rs), together with the JSON value
operations the code relies on (serde_json).

JSON values are modelled by the mutual inductive `Value`/`Fields`:
objects are association lists of string keys.  serde_json's map is
key-ordered; none of the properties below depend on key order, only on
lookup, insertion/replacement, emptiness and equality of values, so the
association-list representation is adequate.  JSON arrays and floats do
not occur in any shape the verified code inspects (every non-object value
is treated atomically by the operations modelled here), so they are not
included as constructors.
-/

mutual

inductive Value where
  | null : Value
  | bool : Bool → Value
  | num : Int → Value
  | str : String → Value
  | obj : Fields → Value

inductive Fields where
  | nil : Fields
  | cons : String → Value → Fields → Fields

end

mutual

def Value.decEq : (a b : Value) → Decidable (a = b)
  | .null, .null => isTrue rfl
  | .bool a, .bool b =>
    match decEq a b with
    | isTrue h => isTrue (h ▸ rfl)
    | isFalse h => isFalse (fun e => h (Value.bool.inj e))
  | .num a, .num b =>
    match decEq a b with
    | isTrue h => isTrue (h ▸ rfl)
    | isFalse h => isFalse (fun e => h (Value.num.inj e))
  | .str a, .str b =>
    match decEq a b with
    | isTrue h => isTrue (h ▸ rfl)
    | isFalse h => isFalse (fun e => h (Value.str.inj e))
  | .obj a, .obj b =>
    match Fields.decEq a b with
    | isTrue h => isTrue (h ▸ rfl)
    | isFalse h => isFalse (fun e => h (Value.obj.inj e))
  | .null, .bool _ => isFalse (fun h => Value.noConfusion h)
  | .null, .num _ => isFalse (fun h => Value.noConfusion h)
  | .null, .str _ => isFalse (fun h => Value.noConfusion h)
  | .null, .obj _ => isFalse (fun h => Value.noConfusion h)
  | .bool _, .null => isFalse (fun h => Value.noConfusion h)
  | .bool _, .num _ => isFalse (fun h => Value.noConfusion h)
  | .bool _, .str _ => isFalse (fun h => Value.noConfusion h)
  | .bool _, .obj _ => isFalse (fun h => Value.noConfusion h)
  | .num _, .null => isFalse (fun h => Value.noConfusion h)
  | .num _, .bool _ => isFalse (fun h => Value.noConfusion h)
  | .num _, .str _ => isFalse (fun h => Value.noConfusion h)
  | .num _, .obj _ => isFalse (fun h => Value.noConfusion h)
  | .str _, .null => isFalse (fun h => Value.noConfusion h)
  | .str _, .bool _ => isFalse (fun h => Value.noConfusion h)
  | .str _, .num _ => isFalse (fun h => Value.noConfusion h)
  | .str _, .obj _ => isFalse (fun h => Value.noConfusion h)
  | .obj _, .null => isFalse (fun h => Value.noConfusion h)
  | .obj _, .bool _ => isFalse (fun h => Value.noConfusion h)
  | .obj _, .num _ => isFalse (fun h => Value.noConfusion h)
  | .obj _, .str _ => isFalse (fun h => Value.noConfusion h)

def Fields.decEq : (a b : Fields) → Decidable (a = b)
  | .nil, .nil => isTrue rfl
  | .cons k v r, .cons k2 v2 r2 =>
    match decEq k k2 with
    | isTrue hk =>
      match Value.decEq v v2 with
      | isTrue hv =>
        match Fields.decEq r r2 with
        | isTrue hr => isTrue (by rw [hk, hv, hr])
        | isFalse hr => isFalse (fun e => hr (Fields.cons.inj e).2.2)
      | isFalse hv => isFalse (fun e => hv (Fields.cons.inj e).2.1)
    | isFalse hk => isFalse (fun e => hk (Fields.cons.inj e).1)
  | .nil, .cons _ _ _ => isFalse (fun h => Fields.noConfusion h)
  | .cons _ _ _, .nil => isFalse (fun h => Fields.noConfusion h)

end

instance : DecidableEq Value := Value.decEq

instance : DecidableEq Fields := Fields.decEq

/-- Key lookup in a JSON object's field list (first occurrence wins, as in
serde_json's map, which holds at most one binding per key). -/
def Fields.lookup : Fields → String → Option Value
  | .nil, _ => none
  | .cons k v r, key => if k = key then some v else Fields.lookup r key

/-- Insert-or-replace of a key binding, modelling assignment through
serde_json's `IndexMut` into an object's map. -/
def Fields.set : Fields → String → Value → Fields
  | .nil, key, x => .cons key x .nil
  | .cons k v r, key, x =>
    if k = key then .cons k x r else .cons k v (Fields.set r key x)

/-- Read-indexing `value[key]` of serde_json: a missing key, or indexing a
non-object, yields `Null`. -/
def Value.getKey : Value → String → Value
  | .obj f, key => (f.lookup key).getD .null
  | _, _ => .null

/-- Write-indexing `value[key] = x` of serde_json: inserts or replaces in an
object; auto-vivifies `Null` into a fresh one-key object (serde_json turns a
`Null` being index-assigned into an object).  Other shapes panic in serde and
are never reached by the embedded code, so they are left unchanged. -/
def Value.setKey : Value → String → Value → Value
  | .obj f, key, x => .obj (Fields.set f key x)
  | .null, key, x => .obj (.cons key x .nil)
  | v, _, _ => v

/-- Model of `Value::is_object`. -/
def Value.isObject : Value → Bool
  | .obj _ => true
  | _ => false

/-- Model of `value.as_object().unwrap().is_empty()` (only ever called by the
source after an `is_object` check). -/
def Value.objIsEmpty : Value → Bool
  | .obj .nil => true
  | _ => false

/-- Two-level write `value[k1][k2] = x` of serde_json used at
src/mft.rs line 44: the object stored under `k1` receives the binding
`k2 ↦ x`. -/
def Value.setKey2 (v : Value) (k1 k2 : String) (x : Value) : Value :=
  v.setKey k1 ((v.getKey k1).setKey k2 x)

/-
Model of the mft-entry data reaching `custom_entry_value` (src/mft.rs).
`MftAttributeType` is the attribute-type enum matched by `get_attr_name`;
an attribute carries its header (type code and instance number) and a
type-specific payload, which the source serializes whole.  Serialization
(`serde_json::to_value`) of the header and of an attribute is modelled by
total projection functions: for these concrete serializable types
`to_value` does not fail.
-/

inductive MftAttributeType where
  | StandardInformation
  | AttributeList
  | FileName
  | ObjectId
  | SecurityDescriptor
  | VolumeName
  | VolumeInformation
  | DATA
  | IndexRoot
  | IndexAllocation
  | BITMAP
  | ReparsePoint
deriving DecidableEq

/-- Embedding of `get_attr_name` (src/mft.rs lines 15-30). -/
def get_attr_name (attr : MftAttributeType) : String :=
  match attr with
  | .StandardInformation => "StandardInformation"
  | .AttributeList => "AttributeList"
  | .FileName => "FileName"
  | .ObjectId => "ObjectId"
  | .SecurityDescriptor => "SecurityDescriptor"
  | .VolumeName => "VolumeName"
  | .VolumeInformation => "VolumeInformation"
  | .DATA => "DATA"
  | .IndexRoot => "IndexRoot"
  | .IndexAllocation => "IndexAllocation"
  | .BITMAP => "BITMAP"
  | .ReparsePoint => "ReparsePoint"

structure MftAttributeHeader where
  type_code : MftAttributeType
  instance_id : Nat
deriving DecidableEq

structure MftAttribute where
  header : MftAttributeHeader
  data : Value
deriving DecidableEq

/-- JSON projection of a whole attribute, modelling `to_value(&attribute)`. -/
def attrToValue (a : MftAttribute) : Value :=
  .obj (.cons "header"
          (.obj (.cons "type_code" (.str (get_attr_name a.header.type_code))
                  (.cons "instance" (.num a.header.instance_id) .nil)))
          (.cons "data" a.data .nil))

structure EntryHeader where
  record_number : Nat
  sequence : Nat
  used_entry_size : Nat
deriving DecidableEq

/-- JSON projection of the entry header, modelling `to_value(&entry.header)`. -/
def headerToValue (h : EntryHeader) : Value :=
  .obj (.cons "record_number" (.num h.record_number)
          (.cons "sequence" (.num h.sequence)
            (.cons "used_entry_size" (.num h.used_entry_size) .nil)))

/-- An mft entry as consumed by `custom_entry_value`: a header plus the
stream produced by `entry.iter_attributes()`, whose items are per-attribute
parse results (`Result<MftAttribute, _>` in the mft crate). -/
structure MftEntry where
  header : EntryHeader
  attributeResults : List (Except String MftAttribute)

/-- Embedding of `entry.iter_attributes().filter_map(Result::ok).collect()`
(src/mft.rs line 39): attributes that failed to parse are dropped. -/
def okAttributes (entry : MftEntry) : List MftAttribute :=
  entry.attributeResults.filterMap Except.toOption

/-- One iteration of the `for attribute in attributes` loop body of
`custom_entry_value` (src/mft.rs lines 40-47):
`entry_value["attributes"][&attr_type_str] = json!({ instance: to_value(..)? })`. -/
def addAttribute (acc : Value) (attr : MftAttribute) : Value :=
  let attr_type_str := get_attr_name attr.header.type_code
  let inst := toString attr.header.instance_id
  acc.setKey2 "attributes" attr_type_str (.obj (.cons inst (attrToValue attr) .nil))

/-- Embedding of `custom_entry_value` (src/mft.rs lines 33-50): build
`{ header: .., attributes: {} }`, then fold the per-attribute assignment over
the successfully parsed attributes. -/
def custom_entry_value (entry : MftEntry) : Except String Value :=
  let entry_value : Value := .obj .nil
  let entry_value := entry_value.setKey "header" (headerToValue entry.header)
  let entry_value := entry_value.setKey "attributes" (.obj .nil)
  Except.ok ((okAttributes entry).foldl addAttribute entry_value)

/-- The snapshot the tracker actually holds, modelling
`get_current_value` / its `.expect(..)` at the call sites: the `Ok` payload
of `custom_entry_value` (which never fails in this model). -/
def snapshotOf (entry : MftEntry) : Value :=
  match custom_entry_value entry with
  | .ok v => v
  | .error _ => .null

mutual

/-- Modelled from the spec: `get_difference_value` lives in the repository's
`utils::json` module, which is not among the provided sources; only its
caller (src/mft.rs line 84) is.  Per the spec's differencing contract, the
result contains, for every path present in `current`, the value at that path
iff it is absent from `previous` or present with a different value; unchanged
paths are omitted; recursion descends into nested objects so a changed leaf is
reported at its own path; sub-objects whose difference is empty are omitted
entirely; removals (paths only in `previous`) do not appear. -/
def diffValue : Value → Value → Value
  | .obj p, .obj c => .obj (diffFields p c)
  | _, c => c

/-- Modelled from the spec: the field-list recursion of `diffValue`, walking
the keys of `current`. -/
def diffFields : Fields → Fields → Fields
  | _, .nil => .nil
  | p, .cons k v rest =>
    match p.lookup k with
    | none => .cons k v (diffFields p rest)
    | some pv =>
      match pv, v with
      | .obj po, .obj co =>
        match diffFields po co with
        | .nil => diffFields p rest
        | d => .cons k (.obj d) (diffFields p rest)
      | pv', v' => if pv' = v' then diffFields p rest else .cons k v (diffFields p rest)

end

/-- Modelled from the spec: the `get_difference_value(&previous, &current)`
entry point (repository module `utils::json`, not among the provided
sources). -/
def get_difference_value (previous current : Value) : Value :=
  diffValue previous current

/-- serde_json's `PartialEq<i64>` for `Value`, used by the identity filter
`entry != listener.entry_to_monitor` (src/mft.rs line 76): true exactly when
the value is a number equal to the integer. -/
def valueEqI64 (v : Value) (i : Int) : Bool :=
  match v with
  | .num n => n == i
  | _ => false

/-- The event field read by the tracker loop (src/mft.rs line 74):
`usn_entry_value["file_reference"]["entry"]`. -/
def eventEntryValue (event : Value) : Value :=
  (event.getKey "file_reference").getKey "entry"

/-- The identity filter of the tracker loop (src/mft.rs lines 74-78): the
event is processed iff its `file_reference.entry` field compares equal to the
bound `entry_to_monitor`. -/
def eventMatches (entry_to_monitor : Int) (event : Value) : Bool :=
  valueEqI64 (eventEntryValue event) entry_to_monitor

/-- Embedding of src/mft.rs lines 86-97, taking the already-computed
difference value: when it is an object, forward it iff it is non-empty and
replace the held previous value by the current one; otherwise forward nothing
and keep the previous value.  Returns (value sent to the channel, new
`previous_value`). -/
def processDiff (difference_value previous_value current_value : Value) :
    Option Value × Value :=
  if difference_value.isObject then
    ((if difference_value.objIsEmpty then none else some difference_value),
     current_value)
  else
    (none, previous_value)

/-- One iteration of the `loop` in `listen_mft` (src/mft.rs lines 68-98):
a non-matching event is skipped (`continue`) with no output and no state
change; a matching event triggers the refresh — the fresh snapshot
`current_value` is diffed against `previous_value` and the result handled by
`processDiff`.  `current_value` stands for the value produced by
`get_current_value` (raw volume read + `custom_entry_value`), performed only
on the matching branch. -/
def listen_mft_iteration (entry_to_monitor : Int) (previous_value : Value)
    (event current_value : Value) : Option Value × Value :=
  if eventMatches entry_to_monitor event then
    processDiff (get_difference_value previous_value current_value)
      previous_value current_value
  else
    (none, previous_value)

/-- Modelled from the spec: the shape of a ChangeEvent published by the
repository's `usn::listener` module (not among the provided sources).  Per
the spec a ChangeEvent carries the identity of the changed record — the full
EntryIdentity, a signed 64-bit slot-plus-generation value — along with a
reason indicator and ordering information; the identity is what the tracker
reads at `file_reference.entry`. -/
def mkChangeEvent (identity : Int) (reason usn : Value) : Value :=
  .obj (.cons "file_reference" (.obj (.cons "entry" (.num identity) .nil))
          (.cons "reason" reason
            (.cons "usn" usn .nil)))

/-
Model of the binary-buffer decoding of `MftOutputBuffer::from_buffer`
(src/mft.rs lines 108-120).  The `Read` source is modelled as the list of
bytes it will yield, each byte a `Nat` below 256; `read_u64`/`read_u32`
little-endian reads and `read_exact` fail exactly when fewer bytes remain
than requested, as in std::io.
-/

/-- Little-endian byte-list value (first byte least significant). -/
def leBytesToNat (bytes : List Nat) : Nat :=
  bytes.foldr (fun b acc => b + 256 * acc) 0

structure MftOutputBuffer where
  file_reference_number : Nat
  file_record_length : Nat
  file_record_buffer : List Nat
deriving DecidableEq

/-- Embedding of `MftOutputBuffer::from_buffer` (src/mft.rs lines 108-120):
read a u64 (file reference), a u32 (declared record length), then exactly
that many payload bytes; any short read is an error. -/
def MftOutputBuffer.from_buffer (raw : List Nat) : Except String MftOutputBuffer :=
  if raw.length < 8 then
    .error "failed to fill whole buffer"
  else
    let file_reference_number := leBytesToNat (raw.take 8)
    let rest := raw.drop 8
    if rest.length < 4 then
      .error "failed to fill whole buffer"
    else
      let file_record_length := leBytesToNat (rest.take 4)
      let rest2 := rest.drop 4
      if rest2.length < file_record_length then
        .error "failed to fill whole buffer"
      else
        .ok { file_reference_number := file_reference_number,
              file_record_length := file_record_length,
              file_record_buffer := rest2.take file_record_length }

/-
Model of the output loop and mask parsing of src/bin/listen_usn.rs.
-/

inductive SinkDest where
  | stdout
  | namedPipe
deriving DecidableEq

/-- Embedding of the per-record write of the output loop
(src/bin/listen_usn.rs lines 118-126): with a named pipe configured, the
serialized record's bytes are written as-is (`fh.write(...)`); without one,
`println!` writes the record followed by a newline to standard output.
Returns the sink written to and the exact text written. -/
def write_output (named_pipe : Bool) (value_str : String) : SinkDest × String :=
  if named_pipe then
    (.namedPipe, value_str)
  else
    (.stdout, value_str ++ "\x0a")

/-- Rust's `char::to_digit(radix)`: digit value of `c` when below `radix`
(decimal digits, then letters in either case from value 10 up). -/
def digitVal (radix : Nat) (c : Char) : Option Nat :=
  let d : Option Nat :=
    if '0' ≤ c ∧ c ≤ '9' then some (c.toNat - '0'.toNat)
    else if 'a' ≤ c ∧ c ≤ 'z' then some (c.toNat - 'a'.toNat + 10)
    else if 'A' ≤ c ∧ c ≤ 'Z' then some (c.toNat - 'A'.toNat + 10)
    else none
  match d with
  | some v => if v < radix then some v else none
  | none => none

/-- Rust's unsigned integer parsing accepts one optional leading plus sign. -/
def stripPlus : List Char → List Char
  | '+' :: rest => rest
  | cs => cs

/-- Digit-accumulation step of Rust's `from_str_radix`: fails on the first
non-digit. -/
def foldDigits (radix : Nat) (cs : List Char) : Option Nat :=
  cs.foldl (fun acc c => acc.bind (fun a => (digitVal radix c).map (fun d => a * radix + d)))
    (some 0)

/-- Embedding of `u32::from_str_radix` (and, at radix 10, of
`str::parse::<u32>`): optional plus sign, then a non-empty run of digits of
the radix, with the u32 range bound; anything else is a parse error,
modelled as `none`. -/
def u32_from_str_radix (s : String) (radix : Nat) : Option Nat :=
  let cs := stripPlus s.data
  if cs.isEmpty then none
  else
    match foldDigits radix cs with
    | some v => if v < 4294967296 then some v else none
    | none => none

/-- Embedding of `m.parse::<u32>()` (src/bin/listen_usn.rs line 81). -/
def parse_u32 (s : String) : Option Nat :=
  u32_from_str_radix s 10

/-- Model of `m.starts_with("0x")`. -/
def startsWith0x (s : String) : Bool :=
  match s.data with
  | '0' :: 'x' :: _ => true
  | _ => false

/-- Model of `m.trim_start_matches("0x")`: removes every leading repetition
of the pattern, not just the first. -/
def strip0x : List Char → List Char
  | '0' :: 'x' :: rest => strip0x rest
  | cs => cs

/-- Embedding of the mask parsing in `main` (src/bin/listen_usn.rs lines
75-85): a string starting with `0x` has all leading `0x` repetitions trimmed
and the remainder parsed as hexadecimal; any other string is parsed as
decimal.  A parse failure makes `expect` abort startup, modelled as `none`. -/
def mask_from_string (m : String) : Option Nat :=
  if startsWith0x m then
    u32_from_str_radix (String.mk (strip0x m.data)) 16
  else
    parse_u32 m

/-- Radix-r numeral reading written from the claim's words: the value of a
string of digits (one optional plus sign allowed, as an unsigned numeral),
defined when every character is a digit of the radix and the value fits in a
u32. -/
def specRadixValue (radix : Nat) (cs : List Char) : Option Nat :=
  let ds := stripPlus cs
  if ds ≠ [] ∧ ds.all (fun c => (digitVal radix c).isSome) then
    let v := ds.foldl (fun a c => a * radix + (digitVal radix c).getD 0) 0
    if v < 4294967296 then some v else none
  else
    none

/-- The mask semantics exactly as the claim states it: the decimal value of
the string, or, when the string is 0x-prefixed, the hexadecimal value of the
digits after the (single) prefix. -/
def spec_mask_claim (m : String) : Option Nat :=
  if startsWith0x m then specRadixValue 16 (m.data.drop 2)
  else specRadixValue 10 m.data

/-- The mask semantics as amended: when the string is 0x-prefixed, every
leading repetition of `0x` is removed before reading the remainder as a
hexadecimal numeral. -/
def spec_mask_amended (m : String) : Option Nat :=
  if startsWith0x m then specRadixValue 16 (strip0x m.data)
  else specRadixValue 10 m.data

/-
Concrete sample data used by counterexamples and witnesses.
-/

def sampleHeader : EntryHeader := ⟨38, 3, 456⟩

/-- A DATA attribute with instance identifier 0. -/
def dataAttr0 : MftAttribute := ⟨⟨.DATA, 0⟩, .str "abc"⟩

/-- A DATA attribute with instance identifier 1. -/
def dataAttr1 : MftAttribute := ⟨⟨.DATA, 1⟩, .str "xyz"⟩

/-- An entry holding two attributes of the same type (DATA) with different
instance identifiers. -/
def twoInstanceEntry : MftEntry := ⟨sampleHeader, [.ok dataAttr0, .ok dataAttr1]⟩

/-- The same entry after all its attributes disappeared. -/
def emptyEntry : MftEntry := ⟨sampleHeader, []⟩

def samplePrev : Value := snapshotOf twoInstanceEntry

def sampleCur : Value := snapshotOf emptyEntry

/-- Snapshot A of the spec's diff-correctness example. -/
def sampleSnapA : Value :=
  .obj (.cons "header" (.obj (.cons "x" (.num 1) .nil))
    (.cons "attributes" (.obj (.cons "DATA" (.obj (.cons "0" (.str "abc") .nil)) .nil)) .nil))

/-- Snapshot B of the spec's diff-correctness example. -/
def sampleSnapB : Value :=
  .obj (.cons "header" (.obj (.cons "x" (.num 1) .nil))
    (.cons "attributes" (.obj (.cons "DATA" (.obj (.cons "0" (.str "abcd") .nil)) .nil)) .nil))

/-- The expected non-empty delta between `sampleSnapA` and `sampleSnapB`. -/
def sampleDelta : Value :=
  .obj (.cons "attributes" (.obj (.cons "DATA" (.obj (.cons "0" (.str "abcd") .nil)) .nil)) .nil)

/-
Support lemmas.
-/

lemma foldDigits_none (radix : Nat) (cs : List Char) :
    cs.foldl (fun acc c => acc.bind (fun a => (digitVal radix c).map (fun d => a * radix + d)))
      none = none := by
  induction cs with
  | nil => rfl
  | cons c t ih => simpa using ih

lemma foldDigits_go (radix : Nat) (cs : List Char) (a : Nat) :
    cs.foldl (fun acc c => acc.bind (fun a => (digitVal radix c).map (fun d => a * radix + d)))
      (some a)
    = if cs.all (fun c => (digitVal radix c).isSome) then
        some (cs.foldl (fun a c => a * radix + (digitVal radix c).getD 0) a)
      else none := by
  induction cs generalizing a with
  | nil => rfl
  | cons c t ih =>
    cases hd : digitVal radix c with
    | none => simp [hd, foldDigits_none]
    | some d => simp [hd, ih]

lemma foldDigits_eq (radix : Nat) (cs : List Char) :
    foldDigits radix cs
    = if cs.all (fun c => (digitVal radix c).isSome) then
        some (cs.foldl (fun a c => a * radix + (digitVal radix c).getD 0) 0)
      else none := by
  unfold foldDigits
  exact foldDigits_go radix cs 0

lemma u32_eq_spec (s : String) (radix : Nat) :
    u32_from_str_radix s radix = specRadixValue radix s.data := by
  simp only [u32_from_str_radix, specRadixValue, foldDigits_eq]
  by_cases he : stripPlus s.data = []
  · simp [he]
  · by_cases ha : (stripPlus s.data).all (fun c => (digitVal radix c).isSome) = true
    · simp [he, ha, List.isEmpty_iff]
    · simp [he, ha, List.isEmpty_iff]

/-
Claim theorems.
-/

/-- C1: on an entry with two attributes of the same type code (DATA) and
different instance identifiers (0 and 1), the snapshot built by
`custom_entry_value` does NOT keep both instances: the per-type node holds
only the last instance written, and the earlier instance identifier is not
addressable (looking it up yields null).  This exhibits the overwrite at
src/mft.rs line 44, where the whole `attributes.<type>` node is replaced by
a fresh one-instance object for every attribute. -/
theorem c1_same_type_instances_overwritten :
    ((snapshotOf twoInstanceEntry).getKey "attributes").getKey "DATA"
      = .obj (.cons "1" (attrToValue dataAttr1) .nil)
    ∧ (((snapshotOf twoInstanceEntry).getKey "attributes").getKey "DATA").getKey "0" = .null
    ∧ dataAttr0.header.type_code = dataAttr1.header.type_code
    ∧ dataAttr0.header.instance_id ≠ dataAttr1.header.instance_id := by decide

/-- C2: the tracker loop refreshes (diffs the fresh snapshot against the held
one) exactly when the received ChangeEvent's identity equals the bound
EntryIdentity; an event with any other identity — in particular one sharing
the low-order slot index but differing in the generation component — is
discarded with no output and no state change. -/
theorem c2_identity_filter_exact (entry_to_monitor j : Int)
    (previous current reason usn : Value) :
    (j ≠ entry_to_monitor →
      listen_mft_iteration entry_to_monitor previous (mkChangeEvent j reason usn) current
        = (none, previous))
    ∧ (j = entry_to_monitor →
      listen_mft_iteration entry_to_monitor previous (mkChangeEvent j reason usn) current
        = processDiff (get_difference_value previous current) previous current) := by
  have hev : eventEntryValue (mkChangeEvent j reason usn) = .num j := by
    simp [eventEntryValue, mkChangeEvent, Value.getKey, Fields.lookup]
  constructor
  · intro h
    have hm : eventMatches entry_to_monitor (mkChangeEvent j reason usn) = false := by
      simp [eventMatches, hev, valueEqI64, h]
    simp [listen_mft_iteration, hm]
  · intro h
    subst h
    have hm : eventMatches j (mkChangeEvent j reason usn) = true := by
      simp [eventMatches, hev, valueEqI64]
    simp [listen_mft_iteration, hm]

/-- Witness for C2: a tracker bound to identity 7 discards an event with
identity 7 + 2^48 (same low-order 48-bit slot index, different generation
component) with no output and no state change, and refreshes on an event
with identity exactly 7. -/
theorem c2_identity_filter_exact_witness :
    listen_mft_iteration 7 samplePrev (mkChangeEvent (7 + 2 ^ 48) .null .null) sampleCur
      = (none, samplePrev)
    ∧ listen_mft_iteration 7 samplePrev (mkChangeEvent 7 .null .null) sampleCur
      = processDiff (get_difference_value samplePrev sampleCur) samplePrev sampleCur :=
  ⟨(c2_identity_filter_exact 7 (7 + 2 ^ 48) samplePrev sampleCur .null .null).1 (by decide),
   (c2_identity_filter_exact 7 7 samplePrev sampleCur .null .null).2 rfl⟩

/-- C3: in any iteration of the tracker loop, a value is forwarded to the
output channel only when the computed difference is a JSON object with at
least one key; an empty DeltaDocument is never sent. -/
theorem c3_forward_only_nonempty_object (entry_to_monitor : Int)
    (previous event current v : Value)
    (h : (listen_mft_iteration entry_to_monitor previous event current).1 = some v) :
    v.isObject = true ∧ v.objIsEmpty = false ∧ v = get_difference_value previous current := by
  unfold listen_mft_iteration at h
  split at h
  · unfold processDiff at h
    split at h
    · next hobj =>
      split at h
      · next hemp => simp at h
      · next hemp =>
        simp at h
        subst h
        exact ⟨hobj, by simpa using hemp, rfl⟩
    · simp at h
  · simp at h

/-- Witness for C3: the spec's diff-correctness pair of snapshots yields a
forwarded value that is a non-empty object equal to the computed
difference. -/
theorem c3_forward_only_nonempty_object_witness :
    sampleDelta.isObject = true ∧ sampleDelta.objIsEmpty = false
    ∧ sampleDelta = get_difference_value sampleSnapA sampleSnapB :=
  c3_forward_only_nonempty_object 7 sampleSnapA (mkChangeEvent 7 .null .null) sampleSnapB
    sampleDelta (by decide)

/-- C4 counterexample: an iteration whose computed difference is the empty
object (here: an attribute disappeared, which the differencing omits) sends
nothing, yet the held previous snapshot IS replaced by the current one, which
differs from it — refuting the claim that `previous` is replaced only after a
non-empty DeltaDocument has been forwarded. -/
theorem c4_replaced_despite_empty_diff_counterexample :
    get_difference_value samplePrev sampleCur = .obj .nil
    ∧ listen_mft_iteration 7 samplePrev (mkChangeEvent 7 .null .null) sampleCur
        = (none, sampleCur)
    ∧ sampleCur ≠ samplePrev := by decide

/-- C4 as amended: the held previous snapshot is replaced by the current one
on every matching-event iteration whose computed difference is a JSON object
— including the empty object, when nothing is forwarded; it stays unchanged
only on non-matching events or when the difference is not an object. -/
theorem c4_previous_replacement_amended (entry_to_monitor : Int)
    (previous event current : Value) :
    (eventMatches entry_to_monitor event = true →
      (get_difference_value previous current).isObject = true →
      (listen_mft_iteration entry_to_monitor previous event current).2 = current)
    ∧ (eventMatches entry_to_monitor event = false →
      (listen_mft_iteration entry_to_monitor previous event current).2 = previous)
    ∧ ((get_difference_value previous current).isObject = false →
      (listen_mft_iteration entry_to_monitor previous event current).2 = previous) := by
  refine ⟨?_, ?_, ?_⟩
  · intro hm hobj
    simp [listen_mft_iteration, hm, processDiff, hobj]
  · intro hm
    simp [listen_mft_iteration, hm]
  · intro hobj
    by_cases hm : eventMatches entry_to_monitor event = true
    · simp [listen_mft_iteration, hm, processDiff, hobj]
    · simp [listen_mft_iteration, hm]

/-- Witness for the amended C4: on the empty-difference iteration of the
counterexample, the held previous snapshot is replaced by the current one. -/
theorem c4_previous_replacement_amended_witness :
    (listen_mft_iteration 7 samplePrev (mkChangeEvent 7 .null .null) sampleCur).2
      = sampleCur :=
  (c4_previous_replacement_amended 7 samplePrev (mkChangeEvent 7 .null .null) sampleCur).1
    (by decide) (by decide)

/-- C5: an attribute that fails to parse is dropped without aborting the
decode-and-snapshot path: the snapshot of an entry whose attribute stream
holds one parse error amid successfully parsed attributes equals the
snapshot of the entry without the failing attribute, the path still
succeeds, and a stream of N successful parses yields exactly those N
attributes. -/
theorem c5_failed_attribute_dropped (hdr : EntryHeader)
    (pre post : List (Except String MftAttribute)) (msg : String) :
    custom_entry_value ⟨hdr, pre ++ .error msg :: post⟩ = custom_entry_value ⟨hdr, pre ++ post⟩
    ∧ (custom_entry_value ⟨hdr, pre ++ .error msg :: post⟩).isOk = true
    ∧ ∀ (attrs : List MftAttribute), okAttributes ⟨hdr, attrs.map Except.ok⟩ = attrs := by
  refine ⟨?_, ?_, ?_⟩
  · simp [custom_entry_value, okAttributes, List.filterMap_append, List.filterMap_cons,
      Except.toOption]
  · rfl
  · intro attrs
    simp [okAttributes, List.filterMap_map, Function.comp_def, Except.toOption,
      List.filterMap_some]

/-- C6 counterexample: a buffer whose payload (2 bytes) is LONGER than the
declared record length (1) does NOT fail — `from_buffer` succeeds, storing
only the first declared-length bytes — refuting the claim that every payload
of length different from the declared length fails. -/
theorem c6_payload_length_mismatch_counterexample :
    MftOutputBuffer.from_buffer ([0, 0, 0, 0, 0, 0, 0, 0] ++ ([1, 0, 0, 0] ++ [5, 6]))
      = .ok ⟨0, 1, [5]⟩
    ∧ [(5 : Nat), 6].length ≠ 1 := ⟨rfl, by decide⟩

/-- C6 as amended: `from_buffer` fails exactly when the available payload is
SHORTER than the declared record length (a truncated read); a payload at
least as long succeeds, storing exactly the first declared-length bytes, and
every successful result's stored buffer has length equal to its declared
record length — nothing is ever silently padded. -/
theorem c6_payload_length_amended :
    (∀ (refBytes lenBytes payload : List Nat),
      refBytes.length = 8 → lenBytes.length = 4 →
      MftOutputBuffer.from_buffer (refBytes ++ (lenBytes ++ payload)) =
        if payload.length < leBytesToNat lenBytes then
          .error "failed to fill whole buffer"
        else
          .ok ⟨leBytesToNat refBytes, leBytesToNat lenBytes,
               payload.take (leBytesToNat lenBytes)⟩)
    ∧ (∀ (raw : List Nat) (b : MftOutputBuffer),
      MftOutputBuffer.from_buffer raw = .ok b →
      b.file_record_buffer.length = b.file_record_length) := by
  constructor
  · intro refBytes lenBytes payload h8 h4
    have e1 : (refBytes ++ (lenBytes ++ payload)).take 8 = refBytes := List.take_left' h8
    have e2 : (refBytes ++ (lenBytes ++ payload)).drop 8 = lenBytes ++ payload :=
      List.drop_left' h8
    have e3 : (lenBytes ++ payload).take 4 = lenBytes := List.take_left' h4
    have e4 : (lenBytes ++ payload).drop 4 = payload := List.drop_left' h4
    have hl : (refBytes ++ (lenBytes ++ payload)).length = 12 + payload.length := by
      simp [List.length_append, h8, h4]
      omega
    have hl2 : (lenBytes ++ payload).length = 4 + payload.length := by
      simp [List.length_append, h4]
    unfold MftOutputBuffer.from_buffer
    simp only [hl, hl2, e1, e2, e3, e4]
    rw [if_neg (by omega), if_neg (by omega)]
  · intro raw b h
    simp only [MftOutputBuffer.from_buffer] at h
    split_ifs at h with h1 h2 h3
    all_goals injection h with h
    subst h
    simp only [List.length_take]
    exact Nat.min_eq_left (Nat.le_of_not_lt h3)

/-- Witness for the amended C6: an exact-length payload decodes successfully
with the whole payload stored. -/
theorem c6_payload_length_amended_witness :
    MftOutputBuffer.from_buffer ([0, 0, 0, 0, 0, 0, 0, 0] ++ ([2, 0, 0, 0] ++ [9, 9]))
      = .ok ⟨0, 2, [9, 9]⟩ := by
  have h := c6_payload_length_amended.1 [0, 0, 0, 0, 0, 0, 0, 0] [2, 0, 0, 0] [9, 9]
    (by decide) (by decide)
  rw [h]
  norm_num [leBytesToNat]

/-- C7 counterexample: on the named-pipe sink the serialized record is
written WITHOUT a record terminator appended — refuting the claim that a
terminator is appended on both concrete sinks. -/
theorem c7_terminator_counterexample :
    write_output true "record1" = (.namedPipe, "record1")
    ∧ (write_output true "record1").2 ≠ "record1" ++ "\x0a" := by decide

/-- C7 as amended: when no named output endpoint is given, each serialized
record is written to standard output with a newline terminator appended;
with a named pipe configured, the record's bytes are written to the pipe
with no terminator appended. -/
theorem c7_sink_write_amended (value_str : String) :
    write_output false value_str = (.stdout, value_str ++ "\x0a")
    ∧ write_output true value_str = (.namedPipe, value_str) :=
  ⟨rfl, rfl⟩

/-- C8 counterexample: the mask string `0x0x1` is 0x-prefixed but the text
after the prefix (`0x1`) is not a well-formed hexadecimal numeral, so by the
claim startup should fail fatally; the code instead strips every leading
`0x` repetition and successfully parses the mask as 1. -/
theorem c8_mask_parse_counterexample :
    mask_from_string "0x0x1" = some 1 ∧ spec_mask_claim "0x0x1" = none := by decide

/-- C8 as amended: the parsed event mask equals the decimal value of the
string (one optional leading plus sign allowed), or, when the string is
0x-prefixed, the hexadecimal value (same sign rule) of the remainder after
removing EVERY leading repetition of `0x`; every string rejected by these
readings is a fatal startup error. -/
theorem c8_mask_parse_amended (m : String) : mask_from_string m = spec_mask_amended m := by
  unfold mask_from_string spec_mask_amended parse_u32
  by_cases h : startsWith0x m = true
  · simp [h, u32_eq_spec]
  · simp [h, u32_eq_spec]

/-- C9: snapshot construction is deterministic — `custom_entry_value` is a
pure function, so equal decoded entries always yield equal snapshots. -/
theorem c9_snapshot_deterministic (e1 e2 : MftEntry) (h : e1 = e2) :
    custom_entry_value e1 = custom_entry_value e2 := by rw [h]

/-- Witness for C9 at a concrete entry. -/
theorem c9_snapshot_deterministic_witness :
    custom_entry_value twoInstanceEntry = custom_entry_value twoInstanceEntry :=
  c9_snapshot_deterministic twoInstanceEntry twoInstanceEntry rfl

/-- C10: when the computed difference value is not a JSON object, the
forwarding-and-update block of the tracker loop sends nothing and leaves the
held previous snapshot unchanged (the replacement of `previous` sits inside
the object-shape check). -/
theorem c10_non_object_diff_no_effect (difference_value previous_value current_value : Value)
    (h : difference_value.isObject = false) :
    processDiff difference_value previous_value current_value = (none, previous_value) := by
  unfold processDiff
  simp [h]

/-- Witness for C10: a string-shaped difference value is neither forwarded
nor allowed to change the held previous snapshot. -/
theorem c10_non_object_diff_no_effect_witness :
    processDiff (.str "x") samplePrev sampleCur = (none, samplePrev) :=
  c10_non_object_diff_no_effect (.str "x") samplePrev sampleCur rfl

end RsWinThings
